import Mathlib

/-!
Verification development for the `prody/ensemble.py` module (classes
`Ensemble` and `Conformation`, helper `getSumOfWeights`).

The Python data is embedded shallowly:

* coordinate rows become `Vec3 = Rat × Rat × Rat`; a conformation is a
  `List Vec3`; per-conformation weight columns become `List Rat`;
* generic numpy arrays, where the exact shape bookkeeping matters
  (`addCoordset`, `np.tile`, `np.ones`, `np.concatenate`), become `NArr`:
  a shape list together with flat data and a dtype tag;
* Python exceptions become the `PyErr` error type carried in `Except`
  or alongside the post-call state (Python does not roll back partial
  mutations when an exception is raised, so `addCoordset` returns the
  state reached at the moment of the error);
* the external superposition primitive `measure.superimpose` and the
  external RMSD primitive `measure._getRMSD` are abstract function
  parameters, as the specification treats them as external collaborators.

Module-level name facts of the source file are recorded explicitly:
`moduleGlobalNames` lists the names bound at module scope (imports at
lines 38-44 and the definitions), and `ensembleAttrNames` lists the
instance attributes assigned in `Ensemble.__init__` (lines 61-69).
-/

set_option autoImplicit false

namespace ProdyEnsemble

/-- Python exception kinds raised by the modelled code paths. -/
inductive PyErr where
  | typeErr
  | valueErr
  | attributeErr
  | nameErr
  | indexErr
  | ensembleErr
  deriving DecidableEq, Repr

/-- One 3-D coordinate row (a row of an `(n_atoms, 3)` float array). -/
abbrev Vec3 := Rat × Rat × Rat

/-- One conformation: the `n_atoms` coordinate rows. -/
abbrev Conf := List Vec3

/-- Componentwise sum of two coordinate rows. -/
def addV (a b : Vec3) : Vec3 :=
  (a.1 + b.1, a.2.1 + b.2.1, a.2.2 + b.2.2)

/-- Componentwise difference of two coordinate rows. -/
def subV (a b : Vec3) : Vec3 :=
  (a.1 - b.1, a.2.1 - b.2.1, a.2.2 - b.2.2)

/-- Scale a coordinate row by a rational. -/
def smulV (c : Rat) (a : Vec3) : Vec3 :=
  (c * a.1, c * a.2.1, c * a.2.2)

/-- Squared Euclidean norm of a row: the quantity `np.power(row, 2).sum()`. -/
def sqNormV (v : Vec3) : Rat :=
  v.1 * v.1 + v.2.1 * v.2.1 + v.2.2 * v.2.2

/-- Pointwise (per-atom) sum of two conformations: numpy elementwise `+`. -/
def addConf (x y : Conf) : Conf :=
  List.zipWith addV x y

/-- `array.sum(0)` over a stack of conformations (per-atom sum). -/
def sumConfs : List Conf → Conf
  | [] => []
  | c :: cs => cs.foldl addConf c

/-- `array.sum(0)` over a stack of per-atom scalar rows
(e.g. `weights.sum(axis=0)` at line 377). -/
def sumRows : List (List Rat) → List Rat
  | [] => []
  | r :: rs => rs.foldl (fun acc row => List.zipWith (fun a b => a + b) acc row) r

/-- Sum of a list of rationals (numpy `sum` over the remaining axis). -/
def sumRat (l : List Rat) : Rat :=
  l.foldl (fun a b => a + b) 0

/-- `self._confs.sum(0) / length`: simple per-atom mean over conformations
(line 382). -/
def meanSimple (cs : List Conf) : Conf :=
  (sumConfs cs).map (smulV (1 / (cs.length : Rat)))

/-- `(self._confs * weights).sum(0)`: per-atom weighted sum (line 384);
each row of conformation `k` is scaled by that conformation's weight for
the atom before summing over conformations. -/
def weightedSum (cs : List Conf) (ws : List (List Rat)) : Conf :=
  sumConfs (List.zipWith (fun c w => List.zipWith (fun v x => smulV x v) c w) cs ws)

/-- Divide each atom's summed row by that atom's total weight
(the `/ weightsum` broadcast at line 384). -/
def divPerAtom (c : Conf) (d : List Rat) : Conf :=
  List.zipWith (fun v x => smulV (1 / x) v) c d

/-- The candidate reference of one `iterimpose` iteration (lines 381-384):
the per-atom weighted mean when a weight array is present, the simple
per-atom mean otherwise.  `weights.sum(axis=0)` is computed at line 377
before the loop, but the weight array never changes inside the loop, so
recomputing it per call is equivalent. -/
def meanCoords (w : Option (List (List Rat))) (cs : List Conf) : Conf :=
  match w with
  | none => meanSimple cs
  | some ws => divPerAtom (weightedSum cs ws) (sumRows ws)

/-- The mutable state read and written by `Ensemble._superimpose` and
`Ensemble.iterimpose`: the reference coordinates `self._coords`, the
conformation stack `self._confs`, and `self._transformations`.  `T` is the
opaque transformation type returned by the external fit primitive. -/
structure IState (T : Type) where
  coords : Conf
  confs : List Conf
  trans : List (Option T)
  deriving Repr, DecidableEq

/-- `Ensemble._superimpose` (lines 318-336): for every conformation `i`,
`confs[i], transformations[i] = measure.superimpose(confs[i], coords,
weights[i])`, the weight argument being omitted when the ensemble carries
no weights.  The reference coordinates are not modified.  `fit` is the
external rigid-fit primitive. -/
def superimposeAll {T : Type} (fit : Conf → Conf → Option (List Rat) → Conf × T)
    (w : Option (List (List Rat))) (s : IState T) : IState T :=
  match w with
  | none =>
      { coords := s.coords,
        confs := s.confs.map (fun c => (fit c s.coords none).1),
        trans := s.confs.map (fun c => some (fit c s.coords none).2) }
  | some ws =>
      { coords := s.coords,
        confs := List.zipWith (fun c wi => (fit c s.coords (some wi)).1) s.confs ws,
        trans := List.zipWith (fun c wi => some (fit c s.coords (some wi)).2) s.confs ws }

/-- One iteration of the `while` loop of `Ensemble.iterimpose`
(lines 380-387): superimpose against the current reference, form the
(weighted) mean as candidate reference `newxyz`, measure the RMSD between
the old reference and the candidate with the external primitive
`measure._getRMSD`, and adopt the candidate.  Returns the new state and the
`rmsdif` value of this iteration. -/
def iterStep {T : Type} (fit : Conf → Conf → Option (List Rat) → Conf × T)
    (rmsdF : Conf → Conf → Rat) (w : Option (List (List Rat)))
    (s : IState T) : IState T × Rat :=
  let s1 := superimposeAll fit w s
  let newxyz := meanCoords w s1.confs
  let rdif := rmsdF s1.coords newxyz
  ({ coords := newxyz, confs := s1.confs, trans := s1.trans }, rdif)

/-- The `while rmsdif > rmsd` loop of `Ensemble.iterimpose` (line 379),
run with explicit fuel; `none` means the fuel ran out before convergence. -/
def iterLoop {T : Type} (fit : Conf → Conf → Option (List Rat) → Conf × T)
    (rmsdF : Conf → Conf → Rat) (w : Option (List (List Rat))) (thr : Rat) :
    Nat → IState T → Rat → Option (IState T)
  | 0, s, rdif => if thr < rdif then none else some s
  | fuel + 1, s, rdif =>
      if thr < rdif then
        iterLoop fit rmsdF w thr fuel
          (iterStep fit rmsdF w s).1 (iterStep fit rmsdF w s).2
      else some s

/-- `Ensemble.iterimpose` (lines 355-391): raises `AttributeError` when the
conformation stack is absent or empty (lines 369-370); otherwise runs the
convergence loop starting from the sentinel `rmsdif = 1` (line 373).
`Except.ok none` means the loop has not converged within the given fuel. -/
def iterimpose {T : Type} (fit : Conf → Conf → Option (List Rat) → Conf × T)
    (rmsdF : Conf → Conf → Rat) (w : Option (List (List Rat))) (thr : Rat)
    (fuel : Nat) (s : IState T) : Except PyErr (Option (IState T)) :=
  if s.confs.isEmpty then Except.error PyErr.attributeErr
  else Except.ok (iterLoop fit rmsdF w thr fuel s 1)

/-! ### Value-level model for `getCoordsets`, `getDeviations`, `getRMSDs`

`EnsL` is the part of an `Ensemble` these methods read: the reference
coordinates, the conformation stack and the optional weight array (one
weight column per conformation, the trailing length-1 axis flattened away).
The `self._confs is None` guard of `getRMSDs` (line 420) returns `None`;
the claims under study concern ensembles whose conformations are set, so
`EnsL.confs` holds the rows directly. -/

/-- The fields of an `Ensemble` read by the statistics methods. -/
structure EnsL where
  coords : Conf
  confs : List Conf
  weights : Option (List (List Rat))
  deriving Repr

/-- Three-list pointwise map, used for the zero-weight substitution. -/
def zip3With {α β γ δ : Type} (f : α → β → γ → δ) :
    List α → List β → List γ → List δ
  | a :: as, b :: bs, c :: cs => f a b c :: zip3With f as bs cs
  | _, _, _ => []

/-- `Ensemble.getCoordsets` with `indices=None` (lines 237-256): a copy of
the conformation stack in which, when a weight array is present, every
atom of zero weight has its row replaced by the reference row
(`coords[i, which] = self._coords[which]`, line 255). -/
def getCoordsets (e : EnsL) : List Conf :=
  match e.weights with
  | none => e.confs
  | some ws =>
      List.zipWith
        (fun c w => zip3With (fun v x r => if x = 0 then r else v) c w e.coords)
        e.confs ws

/-- `Ensemble.getDeviations` (lines 405-416): `getCoordsets() - self._coords`
broadcast per conformation. -/
def getDeviations (e : EnsL) : List Conf :=
  (getCoordsets e).map (fun c => List.zipWith subV c e.coords)

/-- The value under the square root in `Ensemble.getRMSDs` (lines 418-431),
one entry per conformation:
`(np.power(self.getDeviations(), 2).sum(2) * wsum_axis_2).sum(1) / wsum_axis_1`.
When no weight array is configured the code sets both `wsum_axis_2` and
`wsum_axis_1` to the scalar `1` (lines 423-425); otherwise
`wsum_axis_2 = weights.sum(2)` (the per-atom weight, the trailing axis
having length 1) and `wsum_axis_1 = wsum_axis_2.sum(1)` (its sum over
atoms).  `getRMSDs` itself returns the square root of each entry; the
square root is strictly monotone on nonnegative values, so all claims are
settled on these squared values. -/
def getRMSDsSq (e : EnsL) : List Rat :=
  match e.weights with
  | none =>
      (getDeviations e).map (fun dev => sumRat (dev.map sqNormV) / 1)
  | some ws =>
      List.zipWith
        (fun dev w => sumRat (List.zipWith (fun d x => sqNormV d * x) dev w) / sumRat w)
        (getDeviations e) ws

/-! ### Flat numpy arrays for the `addCoordset` shape bookkeeping -/

/-- A numpy array: its shape, its dtype tag and its elements flattened in
row-major order. -/
structure NArr where
  shape : List Nat
  dtype : String
  data : List Rat
  deriving DecidableEq, Repr, Inhabited

/-- `a.ndim`. -/
def NArr.ndim (a : NArr) : Nat :=
  a.shape.length

/-- Dtypes for which `array.astype(np.float64)` succeeds, so the
`except ValueError` arms at lines 171-176 and 197-202 are not taken.
Note the source discards the result of `astype`, so a merely castable
array is stored with its original dtype. -/
def castableToF64 : List String := ["float64", "float32", "int16", "int32", "int64"]

/-- Number of elements described by a shape. -/
def prodL : List Nat → Nat
  | [] => 1
  | d :: ds => d * prodL ds

/-- Row-major flat index of a multi-index. -/
def flatIndex : List Nat → List Nat → Nat
  | _ :: ds, i :: is => i * prodL ds + flatIndex ds is
  | _, _ => 0

/-- All multi-indices of a shape, in row-major order. -/
def allIndices : List Nat → List (List Nat)
  | [] => [[]]
  | d :: ds => (List.range d).flatMap (fun i => (allIndices ds).map (fun ix => i :: ix))

/-- Element of an array at a multi-index. -/
def ndGet (a : NArr) (ix : List Nat) : Rat :=
  a.data.getD (flatIndex a.shape ix) 0

/-- numpy promotion of a shape to `d` axes by prepending length-1 axes. -/
def promoteShape (d : Nat) (s : List Nat) : List Nat :=
  List.replicate (d - s.length) 1 ++ s

/-- `np.tile(a, reps)`: the array and the repetition tuple are promoted to
a common number of axes, the result's shape is their axiswise product, and
entry `ix` of the result is entry `ix mod a.shape` of the promoted input. -/
def tileNA (a : NArr) (reps : List Nat) : NArr :=
  let d := max a.shape.length reps.length
  let sA := promoteShape d a.shape
  let rA := promoteShape d reps
  let outShape := List.zipWith (fun x y => x * y) sA rA
  let aP : NArr := { shape := sA, dtype := a.dtype, data := a.data }
  { shape := outShape, dtype := a.dtype,
    data := (allIndices outShape).map
      (fun ix => ndGet aP (List.zipWith (fun i d0 => i % d0) ix sA)) }

/-- `array.reshape(s)`: succeeds exactly when the element count matches. -/
def reshapeNA (a : NArr) (s : List Nat) : Except PyErr NArr :=
  if prodL s = prodL a.shape then
    Except.ok { shape := s, dtype := a.dtype, data := a.data }
  else Except.error PyErr.valueErr

/-- `np.concatenate((a, b), axis=0)`: requires equal numbers of axes and
equal trailing axes; the leading axis lengths add and the flat data
concatenates. -/
def concatNA0 (a b : NArr) : Except PyErr NArr :=
  if a.shape.length = b.shape.length ∧ a.shape.tail = b.shape.tail then
    Except.ok { shape := (a.shape.headD 0 + b.shape.headD 0) :: a.shape.tail,
                dtype := a.dtype, data := a.data ++ b.data }
  else Except.error PyErr.valueErr

/-- The call `np.ones(n_confs, n_atoms, 1)` at line 222 passes `n_atoms`
and `1` as the positional `dtype` and `order` arguments of `np.ones`, not
as part of the shape.  Real numpy rejects such a dtype/order; this model
is charitable and lets the call return what the first positional argument
alone describes, a rank-1 array of ones of length `n_confs` — either way
the subsequent `np.concatenate` with the rank-3 weight array fails. -/
def npOnesPositional (nConfs nAtomsAsDtype orderArg : Nat) : NArr :=
  { shape := [nConfs], dtype := "float64",
    data := List.replicate (nConfs + 0 * nAtomsAsDtype * orderArg) 1 }

/-- `shape[-2]`. -/
def shapeM2 (sh : List Nat) : Nat :=
  sh.getD (sh.length - 2) 0

/-! ### `Ensemble.addCoordset` as a state transformer

Python exceptions do not undo mutations already performed, so the model
returns the state reached at the moment of the error together with the
error.  The modelled input domain is an ndarray `coords` argument (the
`ag` adapter branch at lines 160-167 and 229-234 binds a source object
instead; the claims under study all pass arrays, for which `ag` stays
`None` and lines 226-228 append `None` placeholders). -/

/-- The `Ensemble` fields touched by `addCoordset`: `self._n_atoms`,
`self._confs`, `self._weights`, `self._ensemble` (the cached-view slots,
here reduced to their presence) and `self._transformations`. -/
structure EnsSt where
  nAtoms : Option Nat
  confs : Option NArr
  weights : Option NArr
  slots : List (Option Unit)
  trans : List (Option Unit)
  deriving DecidableEq, Repr

/-- Weight-argument processing of `addCoordset` (lines 190-207): rank and
trailing-axis and dtype validation, the rank-1 reshape to
`(1, n_atoms, 1)`, and — whenever the incoming batch has more than one
frame — `np.tile(weights, (n_confs, n_atoms, 1))` exactly as the source
writes it. -/
def addCoordsetWeights (nAtoms nConfs : Nat) (w : NArr) : Except PyErr NArr :=
  if ¬ (w.ndim = 1 ∨ w.ndim = 2 ∨ w.ndim = 3) then Except.error PyErr.valueErr
  else if (w.ndim = 2 ∨ w.ndim = 3) ∧ w.shape.getLast? ≠ some 1 then
    Except.error PyErr.valueErr
  else if w.dtype ≠ "float64" ∧ w.dtype ∉ castableToF64 then
    Except.error PyErr.valueErr
  else
    match (if w.ndim = 1 then reshapeNA w [1, nAtoms, 1] else Except.ok w) with
    | Except.error e => Except.error e
    | Except.ok w1 =>
        Except.ok (if 1 < nConfs then tileNA w1 [nConfs, nAtoms, 1] else w1)

/-- The append epilogue of `addCoordset` (lines 226-228, `ag is None`):
one `None` view slot and one `None` transformation slot per added frame. -/
def addSlots (s : EnsSt) (nConfs : Nat) : EnsSt × Option PyErr :=
  ({ s with slots := s.slots ++ List.replicate nConfs none,
            trans := s.trans ++ List.replicate nConfs none }, none)

/-- The append phase of `addCoordset` (lines 212-228), entered after all
coordinate validation with the already-normalised `(n_confs, n_atoms, 3)`
batch and the processed weight argument.  When the stack is non-empty the
coordinate concatenation at line 216 happens first; a failure in the
weight handling afterwards (lines 217-222) therefore leaves the enlarged
coordinate stack behind. -/
def addCoordsetAppend (s : EnsSt) (coords : NArr) (wNew : Option NArr)
    (nAtoms nConfs : Nat) : EnsSt × Option PyErr :=
  match s.confs with
  | none => addSlots { s with confs := some coords, weights := wNew } nConfs
  | some oldConfs =>
      match concatNA0 oldConfs coords with
      | Except.error e => (s, some e)
      | Except.ok confs2 =>
          let s2 := { s with confs := some confs2 }
          match wNew with
          | some w2 =>
              match s2.weights with
              | none => (s2, some PyErr.valueErr)
              | some oldW =>
                  match concatNA0 oldW w2 with
                  | Except.error e => (s2, some e)
                  | Except.ok wcat =>
                      addSlots { s2 with weights := some wcat } nConfs
          | none =>
              match s2.weights with
              | none => addSlots s2 nConfs
              | some oldW =>
                  match concatNA0 oldW (npOnesPositional nConfs nAtoms 1) with
                  | Except.error e => (s2, some e)
                  | Except.ok wcat =>
                      addSlots { s2 with weights := some wcat } nConfs

/-- Continuation of `addCoordset` once `n_atoms` is known (lines 183-228):
normalise a single frame to a batch of one (line 186), process the weight
argument, then append. -/
def addCoordsetBody (s : EnsSt) (coords0 : NArr) (weights0 : Option NArr)
    (nAtoms : Nat) : EnsSt × Option PyErr :=
  match (if coords0.ndim = 2 then reshapeNA coords0 [1, nAtoms, 3]
         else Except.ok coords0) with
  | Except.error e => (s, some e)
  | Except.ok coords1 =>
      let nConfs := coords1.shape.headD 0
      match weights0 with
      | none => addCoordsetAppend s coords1 none nAtoms nConfs
      | some w =>
          match addCoordsetWeights nAtoms nConfs w with
          | Except.error e => (s, some e)
          | Except.ok w1 => addCoordsetAppend s coords1 (some w1) nAtoms nConfs

/-- `Ensemble.addCoordset` (lines 153-235) for an ndarray `coords`
argument: rank and dtype validation (lines 169-176), the `n_atoms`
fixing or check (lines 178-182) — note the assignment to `self._n_atoms`
at line 179 happens before the weight argument is examined — then the
body.  Returns the post-call state and the raised exception, if any. -/
def addCoordset (s : EnsSt) (coords0 : NArr) (weights0 : Option NArr) :
    EnsSt × Option PyErr :=
  if ¬ (coords0.ndim = 2 ∨ coords0.ndim = 3) then (s, some PyErr.valueErr)
  else if coords0.dtype ≠ "float64" ∧ coords0.dtype ∉ castableToF64 then
    (s, some PyErr.valueErr)
  else
    match s.nAtoms with
    | some n =>
        if shapeM2 coords0.shape ≠ n then (s, some PyErr.valueErr)
        else addCoordsetBody s coords0 weights0 n
    | none =>
        addCoordsetBody { s with nAtoms := some (shapeM2 coords0.shape) }
          coords0 weights0 (shapeM2 coords0.shape)

/-! ### `Ensemble.delCoordset` and the cached conformation views -/

/-- The observable state of a cached `Conformation` view: its `_index`
field and whether its `_ensemble` back-reference is still set. -/
structure ViewObj where
  index : Option Nat
  attached : Bool
  deriving DecidableEq, Repr

/-- The `Ensemble` fields touched by `delCoordset`: the conformation
stack, the weight array, the cached-view slots `self._ensemble` and
`self._transformations`. -/
structure EnsD where
  confs : Option (List Conf)
  weights : Option (List (List Rat))
  slots : List (Option ViewObj)
  trans : List (Option Unit)
  deriving DecidableEq, Repr

/-- `Ensemble.delCoordset` for a single integer index (lines 259-282).
Lines 261-270: a boolean mask keeps every row but `index`; when no row
survives, coordinate and weight storage reset to `None`.  Lines 272-282:
the slot and the transformation at `index` are popped, and the popped view
— if one was cached there — has its `_index` and `_ensemble` fields
cleared.  The popped object is returned alongside the new state; the loop
touches no other cached view. -/
def delCoordset (s : EnsD) (index : Nat) : EnsD × Option ViewObj :=
  let s1 :=
    if s.slots.length - 1 = 0 then { s with confs := none, weights := none }
    else
      { s with confs := s.confs.map (fun cs => cs.eraseIdx index),
               weights := s.weights.map (fun ws => ws.eraseIdx index) }
  let popped := s1.slots.getD index none
  let detached := popped.map (fun v => { v with index := none, attached := false })
  ({ s1 with slots := s1.slots.eraseIdx index, trans := s1.trans.eraseIdx index },
   detached)

/-! ### Reference coordinates: `setCoordinates` / `getCoordinates`

Whether `setCoordinates` copies its argument is an aliasing question, so
this model carries an explicit store of array objects: `Mem` is the list
of allocated arrays, and an ndarray value is an index into it.  `.copy()`
allocates a fresh cell with the same contents; an in-place mutation
overwrites a cell. -/

/-- The store of allocated ndarray objects. -/
abbrev Mem := List NArr

/-- Dereference an ndarray object. -/
def readA (m : Mem) (id : Nat) : NArr :=
  m.getD id default

/-- In-place mutation of an ndarray object (e.g. `arr[:] = ...` by the
caller). -/
def writeA (m : Mem) (id : Nat) (v : NArr) : Mem :=
  m.set id v

/-- Allocate a fresh ndarray object; returns the new store and the new
object's index. -/
def allocA (m : Mem) (v : NArr) : Mem × Nat :=
  (m ++ [v], m.length)

/-- The fields of an `Ensemble` read by `setCoordinates` and
`getCoordinates`: `self._n_atoms` and the stored reference `self._coords`
(an object reference into the store, or `None`). -/
structure EnsR where
  nAtoms : Option Nat
  coordsId : Option Nat
  deriving DecidableEq, Repr

/-- The `coords` argument of `setCoordinates`: either an ndarray object,
or a non-array object whose `getCoordinates()` accessor yields the given
array (`none` models an object without the accessor, line 130). -/
inductive CoordsArg where
  | arrRef (id : Nat)
  | objA (acc : Option NArr)

/-- The tail of `setCoordinates` shared by both input branches
(lines 145-150): when `self._n_atoms` is already fixed, `coords.shape[0]`
must match it (`ValueError` otherwise, line 147); when unset it is
established from `coords.shape[0]` (line 149; an empty shape would make
the subscript an `IndexError`).  Line 150 then stores the object itself:
`self._coords = coords`, with no copy taken. -/
def setCoordsTail (m : Mem) (e : EnsR) (a : NArr) (id : Nat) :
    Except PyErr (Mem × EnsR) :=
  match e.nAtoms with
  | some n =>
      match a.shape.head? with
      | none => Except.error PyErr.indexErr
      | some n0 =>
          if n0 ≠ n then Except.error PyErr.valueErr
          else Except.ok (m, { e with coordsId := some id })
  | none =>
      match a.shape.head? with
      | none => Except.error PyErr.indexErr
      | some n0 => Except.ok (m, { nAtoms := some n0, coordsId := some id })

/-- `Ensemble.setCoordinates` (lines 124-150).  For an ndarray argument
the `elif` chain at lines 134-143 validates rank 2, trailing width 3 and
the dtype (a castable non-float64 array passes, the `astype` result being
discarded).  For a non-array argument with a `getCoordinates` accessor the
accessor's result — a freshly allocated object — replaces `coords`
(lines 127-132) and, the chain being an `elif` on the ndarray test, none
of those validations run.  Both branches finish with `setCoordsTail`. -/
def setCoordinates (m : Mem) (e : EnsR) (c : CoordsArg) :
    Except PyErr (Mem × EnsR) :=
  match c with
  | CoordsArg.objA none => Except.error PyErr.typeErr
  | CoordsArg.objA (some a) =>
      setCoordsTail (allocA m a).1 e a (allocA m a).2
  | CoordsArg.arrRef id =>
      let a := readA m id
      if a.ndim ≠ 2 then Except.error PyErr.valueErr
      else if a.shape.getD 1 0 ≠ 3 then Except.error PyErr.valueErr
      else if a.dtype ≠ "float64" ∧ a.dtype ∉ castableToF64 then
        Except.error PyErr.valueErr
      else setCoordsTail m e a id

/-- `Ensemble.getCoordinates` (lines 120-122): `self._coords.copy()` — a
fresh allocation holding the current contents of the stored object
(`AttributeError` on `None`). -/
def getCoordinates (m : Mem) (e : EnsR) : Except PyErr (Mem × Nat) :=
  match e.coordsId with
  | none => Except.error PyErr.attributeErr
  | some id => Except.ok (allocA m (readA m id))

/-! ### `Ensemble.transform` and `getSumOfWeights`: name-resolution facts -/

/-- The names bound at module scope of `prody/ensemble.py`: the imports at
lines 38-44 (`from prody import ... as LOGGER` binds only `LOGGER`;
`from prody import measure` binds only `measure` — the package name
`prody` itself is never bound) and the module's own definitions.  Neither
`prody` (used at lines 514 and 540) nor `GF` (used at line 350) is among
them. -/
def moduleGlobalNames : List String :=
  ["os", "time", "np", "LOGGER", "measure",
   "EnsembleError", "Ensemble", "Conformation",
   "getSumOfWeights", "showSumOfWeights"]

/-- The instance attributes assigned in `Ensemble.__init__` (lines 61-69).
No attribute or method of the class is named `conformations` or `weights`,
so the reads `self.conformations` (lines 349-350 and 395-402) and
`self.weights` (line 353) raise `AttributeError`. -/
def ensembleAttrNames : List String :=
  ["_name", "_ensemble", "_confs", "_weights", "_coords",
   "_n_atoms", "_transformations"]

/-- `Ensemble.transform` (lines 338-353).  Line 346: if any transformation
slot is `None`, an `EnsembleError` is raised.  Otherwise line 349
evaluates `self.conformations`, an attribute the class never defines, so
the loop header itself raises `AttributeError` (were that attribute
present, the loop body would next resolve the unbound global `GF`). -/
def transform (trans : List (Option Unit)) : Except PyErr Unit :=
  if 0 < trans.countP (fun t => t.isNone) then Except.error PyErr.ensembleErr
  else if "conformations" ∈ ensembleAttrNames then
    (if "GF" ∈ moduleGlobalNames then Except.ok () else Except.error PyErr.nameErr)
  else Except.error PyErr.attributeErr

/-- A value passed to the module-level function `getSumOfWeights`. -/
inductive PyVal where
  | ensembleV (weights : Option (List (List Rat)))
  | intV (n : Int)
  deriving DecidableEq, Repr

/-- `getSumOfWeights` (lines 503-522).  Line 514 evaluates
`isinstance(ensemble, prody.Ensemble)`, whose attribute base `prody` is an
unbound global of this module, so every call raises `NameError` before the
`isinstance` test can run.  Were `prody` bound, a non-`Ensemble` argument
would raise `TypeError`, an `Ensemble` without weights would yield `None`,
and one with weights would yield `weights.sum(0)`, the per-atom sum over
the conformation axis. -/
def getSumOfWeights (x : PyVal) : Except PyErr (Option (List Rat)) :=
  if "prody" ∈ moduleGlobalNames then
    match x with
    | PyVal.ensembleV none => Except.ok none
    | PyVal.ensembleV (some ws) => Except.ok (some (sumRows ws))
    | _ => Except.error PyErr.typeErr
  else Except.error PyErr.nameErr

/-! ### Concrete instances used by the claim theorems and witnesses -/

/-- A fit primitive for the C1 witness: returns the reference itself as
the aligned result (a conformation already on the reference is a fixed
point). -/
def exFit1 : Conf → Conf → Option (List Rat) → Conf × Unit :=
  fun _ r _ => (r, ())

/-- An RMSD primitive for the C1 witness. -/
def exRmsd1 : Conf → Conf → Rat :=
  fun _ _ => 0

/-- C1 witness start state: one conformation of one atom. -/
def exS1 : IState Unit :=
  { coords := [(0, 0, 0)], confs := [[(1, 0, 0)]], trans := [none] }

/-- C1 witness final state: the output of the single iteration the loop
performs on `exS1` (the conformation lands on the reference and the
reference becomes the mean `[(0, 0, 0)]`). -/
def exS1fin : IState Unit :=
  (iterStep exFit1 exRmsd1 none exS1).1

/-- C2 input: two atoms, reference at the origin, one conformation offset
by `(1,0,0)` at both atoms, no weights configured. -/
def exEnsC2 : EnsL :=
  { coords := [(0, 0, 0), (0, 0, 0)],
    confs := [[(1, 0, 0), (1, 0, 0)]],
    weights := none }

/-- C3 input state: a fresh ensemble. -/
def exS3 : EnsSt :=
  { nAtoms := none, confs := none, weights := none, slots := [], trans := [] }

/-- C3 coordinate batch: `K = 2` frames of `N = 2` atoms. -/
def exC3coords : NArr :=
  { shape := [2, 2, 3], dtype := "float64", data := List.replicate 12 0 }

/-- C3 weight argument: one rank-1 per-atom weight column for 2 atoms. -/
def exC3weights : NArr :=
  { shape := [2], dtype := "float64", data := [2, 3] }

/-- C4 input state: one stored conformation of 2 atoms with weights. -/
def exS4 : EnsSt :=
  { nAtoms := some 2,
    confs := some { shape := [1, 2, 3], dtype := "float64", data := List.replicate 6 0 },
    weights := some { shape := [1, 2, 1], dtype := "float64", data := [1, 1] },
    slots := [none], trans := [none] }

/-- C4 coordinate argument: a single 2-atom frame, no weight argument. -/
def exC4coords : NArr :=
  { shape := [2, 3], dtype := "float64", data := [1, 0, 0, 1, 0, 0] }

/-- C5 input state: two conformations of one atom, both views cached. -/
def exD5 : EnsD :=
  { confs := some [[(1, 0, 0)], [(2, 0, 0)]],
    weights := none,
    slots := [some { index := some 0, attached := true },
              some { index := some 1, attached := true }],
    trans := [some (), some ()] }

/-- C6: the caller's valid 2-atom reference array. -/
def exArrA : NArr :=
  { shape := [2, 3], dtype := "float64", data := [0, 0, 0, 1, 0, 0] }

/-- C6: the contents the caller later writes into the same array object. -/
def exArrB : NArr :=
  { shape := [2, 3], dtype := "float64", data := [9, 9, 9, 9, 9, 9] }

/-- C6: store holding only the caller's array. -/
def exMem6 : Mem := [exArrA]

/-- C6: a fresh ensemble. -/
def exEns6 : EnsR := { nAtoms := none, coordsId := none }

/-- C6: the ensemble after `setCoordinates` stored the caller's object. -/
def exEns6b : EnsR := { nAtoms := some 2, coordsId := some 0 }

/-- C7 input state: one stored conformation of one atom with weights. -/
def exS7 : EnsSt :=
  { nAtoms := some 1,
    confs := some { shape := [1, 1, 3], dtype := "float64", data := [0, 0, 0] },
    weights := some { shape := [1, 1, 1], dtype := "float64", data := [1] },
    slots := [none], trans := [none] }

/-- C7 coordinate argument: a single 1-atom frame, no weight argument. -/
def exC7coords : NArr :=
  { shape := [1, 3], dtype := "float64", data := [5, 5, 5] }

/-- C10 counterexample adapter payload: a 3×3 integer array. -/
def exA10 : NArr :=
  { shape := [3, 3], dtype := "int32", data := List.replicate 9 1 }

/-- C10 counterexample ensemble: atom count already fixed at 2. -/
def exEns10 : EnsR := { nAtoms := some 2, coordsId := none }

/-- C10 witness adapter payload: arbitrary shape and dtype. -/
def exA10w : NArr := { shape := [5, 7], dtype := "int32", data := [] }

/-- C10 witness adapter payload of rank 0 (a scalar array, whose
`shape[0]` subscript raises `IndexError`). -/
def exA10rank0 : NArr := { shape := [], dtype := "float64", data := [7] }

/-! ## Theorems -/

/-- `_superimpose` never modifies the reference coordinates. -/
theorem superimposeAll_coords {T : Type}
    (fit : Conf → Conf → Option (List Rat) → Conf × T)
    (w : Option (List (List Rat))) (s : IState T) :
    (superimposeAll fit w s).coords = s.coords := by
  cases w <;> rfl

/-- When the `while` loop of `iterimpose` returns within its fuel, either
it never entered its body (the incoming `rmsdif` was already at most the
threshold), or the returned state is the output of a final `iterStep`
whose `rmsdif` is at most the threshold. -/
theorem iterLoop_return {T : Type}
    (fit : Conf → Conf → Option (List Rat) → Conf × T)
    (rmsdF : Conf → Conf → Rat) (w : Option (List (List Rat))) (thr : Rat) :
    ∀ (fuel : Nat) (s : IState T) (r : Rat) (sFin : IState T),
      iterLoop fit rmsdF w thr fuel s r = some sFin →
      (r ≤ thr ∧ sFin = s) ∨
        ∃ sp : IState T,
          (iterStep fit rmsdF w sp).1 = sFin ∧ (iterStep fit rmsdF w sp).2 ≤ thr := by
  intro fuel
  induction fuel with
  | zero =>
      intro s r sFin h
      by_cases hr : thr < r
      · simp only [iterLoop, if_pos hr] at h
        exact Option.noConfusion h
      · simp only [iterLoop, if_neg hr, Option.some.injEq] at h
        exact Or.inl ⟨le_of_not_lt hr, h.symm⟩
  | succ f ih =>
      intro s r sFin h
      by_cases hr : thr < r
      · simp only [iterLoop, if_pos hr] at h
        rcases ih _ _ _ h with ⟨hle, hEq⟩ | hex
        · exact Or.inr ⟨s, hEq.symm, hle⟩
        · exact Or.inr hex
      · simp only [iterLoop, if_neg hr, Option.some.injEq] at h
        exact Or.inl ⟨le_of_not_lt hr, h.symm⟩

/-- Claim C1: for every ensemble holding at least one conformation,
`iterimpose` performs, per iteration, exactly: superimpose all
conformations against the current reference (`iterStep` first applies
`superimposeAll`), compute the weighted mean coordinate across
conformations — per-atom weighted average when a weight array is present,
simple mean otherwise (`meanCoords`) — as candidate reference, compute the
RMSD between old and candidate reference, and adopt the candidate; when it
returns, the final iteration's RMSD is at most the convergence threshold
and the reference coordinates equal the mean computed in that final
iteration over the final (superimposed) conformations.  The hypothesis
`thr < 1` reflects the sentinel `rmsdif = 1` at line 373, which guarantees
at least one iteration for the documented threshold range (default
`0.0001`). -/
theorem iterimpose_final_mean {T : Type}
    (fit : Conf → Conf → Option (List Rat) → Conf × T)
    (rmsdF : Conf → Conf → Rat) (w : Option (List (List Rat))) (thr : Rat)
    (fuel : Nat) (s sFin : IState T)
    (hthr : thr < 1)
    (hret : iterimpose fit rmsdF w thr fuel s = Except.ok (some sFin)) :
    ∃ sp : IState T,
      sFin.confs = (superimposeAll fit w sp).confs ∧
      sFin.coords = meanCoords w sFin.confs ∧
      rmsdF sp.coords sFin.coords ≤ thr := by
  unfold iterimpose at hret
  by_cases hemp : s.confs.isEmpty
  · rw [if_pos hemp] at hret
    exact absurd hret (by simp)
  · rw [if_neg hemp] at hret
    have hloop : iterLoop fit rmsdF w thr fuel s 1 = some sFin :=
      Except.ok.inj hret
    rcases iterLoop_return fit rmsdF w thr fuel s 1 sFin hloop with ⟨hle, _⟩ | ⟨sp, h1, h2⟩
    · exact absurd hle (not_le.mpr hthr)
    · have e2 : (iterStep fit rmsdF w sp).2
          = rmsdF (superimposeAll fit w sp).coords
              ((iterStep fit rmsdF w sp).1).coords := rfl
      rw [superimposeAll_coords] at e2
      refine ⟨sp, ?_, ?_, ?_⟩
      · rw [← h1]
        rfl
      · rw [← h1]
        rfl
      · rw [← h1, ← e2]
        exact h2

/-- Witness for C1: a one-conformation ensemble, the onto-reference fit
primitive and a zero RMSD primitive at threshold `0`; the hypotheses of
`iterimpose_final_mean` hold and its conclusion follows at this input. -/
theorem iterimpose_final_mean_witness :
    ((0 : Rat) < 1) ∧
    iterimpose exFit1 exRmsd1 none 0 2 exS1 = Except.ok (some exS1fin) ∧
    ∃ sp : IState Unit,
      exS1fin.confs = (superimposeAll exFit1 none sp).confs ∧
      exS1fin.coords = meanCoords none exS1fin.confs ∧
      exRmsd1 sp.coords exS1fin.coords ≤ (0 : Rat) :=
  ⟨by norm_num, by rfl,
   iterimpose_final_mean exFit1 exRmsd1 none 0 2 exS1 exS1fin
     (by norm_num) (by rfl)⟩

/-- Claim C2: the claim states that with no weights configured `getRMSDs`
divides the summed squared deviation by the total weight sum with every
per-atom weight treated as 1, i.e. by the atom count `N`.  The code
instead sets both weight sums to the scalar `1` (lines 423-425), so it
divides by 1.  On `exEnsC2` (`N = 2` atoms, each deviating by one unit
along x) the code's value under the square root is `2 = 2/1`, whereas the
claimed formula yields `2/2 = 1`; the square root being injective on
nonnegative rationals, the returned RMSD differs as well (`sqrt 2` versus
the claimed `1`). -/
theorem getRMSDs_divisor_bug :
    getRMSDsSq exEnsC2 = [2] ∧ getRMSDsSq exEnsC2 ≠ [1] := by
  have h : getRMSDsSq exEnsC2 = [2] := by
    norm_num [getRMSDsSq, exEnsC2, getDeviations, getCoordsets, sumRat,
      sqNormV, subV]
  refine ⟨h, ?_⟩
  rw [h]
  decide

/-- Claim C3: the claim states that after adding `K = 2` frames of
`N = 2` atoms with a per-atom weight argument, the stored weights array
has shape `(2, 2, 1)` with the supplied column replicated across both
frames.  The code's replication at line 207 is
`np.tile(weights, (n_confs, n_atoms, 1))`, which multiplies the atom axis
by `n_atoms` as well: the stored array has shape `(2, 4, 1)` — the first
axis matches the conformation count, but each frame carries `N² = 4`
entries instead of `N = 2`. -/
theorem addCoordset_tile_shape_bug :
    ((addCoordset exS3 exC3coords (some exC3weights)).1.weights).map NArr.shape
      = some [2, 4, 1] ∧
    ((addCoordset exS3 exC3coords (some exC3weights)).1.weights).map NArr.shape
      ≠ some [2, 2, 1] ∧
    (addCoordset exS3 exC3coords (some exC3weights)).2 = none :=
  ⟨rfl, by decide, rfl⟩

/-- Claim C4: the claim states that a failing `addCoordset` leaves the
ensemble unchanged.  On `exS4` (one stored conformation with weights), a
call adding one frame without a weight argument raises — the `np.ones`
misuse at line 222 cannot produce a `(n_confs, n_atoms, 1)` block — yet
the coordinate stack was already extended by the concatenation at
line 216: after the failing call `self._confs` holds two frames instead
of one.  Validation does not all happen before mutation. -/
theorem addCoordset_partial_mutation :
    (addCoordset exS4 exC4coords none).2 = some PyErr.valueErr ∧
    (addCoordset exS4 exC4coords none).1.confs ≠ exS4.confs :=
  ⟨rfl, by decide⟩

/-- Claim C5: the claim states that deleting conformation 0 detaches the
view cached at slot 0 and renumbers the surviving cached view from index
1 to index 0.  The loop at lines 277-282 clears only the popped view's
`_index` and `_ensemble`; the surviving view keeps `_index = 1` even
though it now sits in slot 0 of a 1-conformation ensemble, so its index
is stale (it would address the wrong — here out-of-range — row of the
compacted arrays). -/
theorem delCoordset_stale_view_index :
    (delCoordset exD5 0).1.slots = [some { index := some 1, attached := true }] ∧
    (delCoordset exD5 0).1.slots ≠ [some { index := some 0, attached := true }] ∧
    (delCoordset exD5 0).2 = some { index := none, attached := false } :=
  ⟨rfl, by decide, rfl⟩

/-- Counterexample to claim C6: `setCoordinates` stores the caller's
array object itself (line 150), not a private copy.  After
`setCoordinates` on the valid 2×3 array `exArrA`, the caller overwrites
that same object with `exArrB`; `getCoordinates` then returns a copy of
`exArrB`, not of `exArrA` — mutating the caller's array after the call
does change what `getCoordinates` later returns. -/
theorem setCoordinates_no_copy_cex :
    setCoordinates exMem6 exEns6 (CoordsArg.arrRef 0) = Except.ok (exMem6, exEns6b) ∧
    getCoordinates (writeA exMem6 0 exArrB) exEns6b =
      Except.ok ([exArrB, exArrB], 1) ∧
    readA [exArrB, exArrB] 1 ≠ exArrA :=
  ⟨rfl, rfl, by decide⟩

/-- Inversion for the shared tail of `setCoordinates`: a successful call
leaves the store untouched and records exactly the given object. -/
theorem setCoordsTail_ok (m : Mem) (e : EnsR) (a : NArr) (id : Nat)
    (m2 : Mem) (e2 : EnsR)
    (hok : setCoordsTail m e a id = Except.ok (m2, e2)) :
    m2 = m ∧ e2.coordsId = some id := by
  unfold setCoordsTail at hok
  split at hok
  · split at hok
    · exact Except.noConfusion hok
    · split at hok
      · exact Except.noConfusion hok
      · have h := Except.ok.inj hok
        rw [Prod.mk.injEq] at h
        exact ⟨h.1.symm, by rw [← h.2]⟩
  · split at hok
    · exact Except.noConfusion hok
    · have h := Except.ok.inj hok
      rw [Prod.mk.injEq] at h
      exact ⟨h.1.symm, by rw [← h.2]⟩

/-- Inversion for the ndarray branch of `setCoordinates`: success stores
the argument object itself and allocates nothing. -/
theorem setCoordinates_arr_ok (m : Mem) (e : EnsR) (id : Nat)
    (m2 : Mem) (e2 : EnsR)
    (hok : setCoordinates m e (CoordsArg.arrRef id) = Except.ok (m2, e2)) :
    m2 = m ∧ e2.coordsId = some id := by
  simp only [setCoordinates] at hok
  split at hok
  · exact Except.noConfusion hok
  · split at hok
    · exact Except.noConfusion hok
    · split at hok
      · exact Except.noConfusion hok
      · exact setCoordsTail_ok m e (readA m id) id m2 e2 hok

/-- Claim C6 (amended): for every array argument on which
`setCoordinates` succeeds, the ensemble stores the caller's array object
itself — no copy is taken, so a later in-place mutation of the caller's
array is visible to `getCoordinates` (third conjunct, instantiated at a
mutated store) — while `getCoordinates` does return the stored contents
in fresh storage, so mutating the object it returns does not affect the
stored data (fourth conjunct). -/
theorem setCoordinates_stores_reference (m : Mem) (e : EnsR) (id : Nat)
    (m2 : Mem) (e2 : EnsR)
    (hok : setCoordinates m e (CoordsArg.arrRef id) = Except.ok (m2, e2)) :
    m2 = m ∧ e2.coordsId = some id ∧
    (∀ mm : Mem, getCoordinates mm e2 = Except.ok (mm ++ [readA mm id], mm.length)) ∧
    (∀ mm : Mem, ∀ v : NArr, id < mm.length →
      readA (writeA (mm ++ [readA mm id]) mm.length v) id = readA mm id) := by
  obtain ⟨h1, h2⟩ := setCoordinates_arr_ok m e id m2 e2 hok
  refine ⟨h1, h2, ?_, ?_⟩
  · intro mm
    unfold getCoordinates
    rw [h2]
    rfl
  · intro mm v hlt
    unfold readA writeA
    rw [List.getD_eq_getElem?_getD, List.getD_eq_getElem?_getD,
      List.getElem?_set_ne (by omega), List.getElem?_append_left hlt]

/-- Witness for C6 (amended): `setCoordinates_stores_reference` applied
to the concrete store `exMem6` and the valid array `exArrA` at object 0. -/
theorem setCoordinates_stores_reference_witness :
    setCoordinates exMem6 exEns6 (CoordsArg.arrRef 0) = Except.ok (exMem6, exEns6b) ∧
    (exMem6 = exMem6 ∧ exEns6b.coordsId = some 0 ∧
      (∀ mm : Mem, getCoordinates mm exEns6b = Except.ok (mm ++ [readA mm 0], mm.length)) ∧
      (∀ mm : Mem, ∀ v : NArr, 0 < mm.length →
        readA (writeA (mm ++ [readA mm 0]) mm.length v) 0 = readA mm 0)) :=
  ⟨rfl, setCoordinates_stores_reference exMem6 exEns6 0 exMem6 exEns6b rfl⟩

/-- Claim C7: the claim states that adding frames without a weight
argument to an ensemble that already carries weights succeeds and pads
the new frames with weight 1 per atom.  Line 222 calls
`np.ones(n_confs, n_atoms, 1)` — the shape tuple is passed as three
positional arguments, so no `(n_confs, n_atoms, 1)` block of ones can
result and the weight concatenation raises instead: on `exS7` the call
errors, the weight array keeps first-axis length 1 (no padding row was
appended) while the coordinate stack has already grown. -/
theorem addCoordset_ones_padding_error :
    (addCoordset exS7 exC7coords none).2 = some PyErr.valueErr ∧
    (addCoordset exS7 exC7coords none).1.weights = exS7.weights ∧
    ((addCoordset exS7 exC7coords none).1.weights).map NArr.shape ≠ some [2, 1, 1] :=
  ⟨rfl, rfl, by decide⟩

/-- Claim C8: the claim states that whenever every conformation has a
recorded transformation, `transform` re-applies them and returns without
error.  The `None`-slot check at line 346 does raise the domain error
`EnsembleError` exactly when a slot is `None`; but in the all-recorded
case line 349 reads `self.conformations`, an attribute the class never
defines, so the call raises `AttributeError` instead of applying
anything. -/
theorem transform_broken_attribute :
    transform [some (), some ()] = Except.error PyErr.attributeErr ∧
    transform [some (), none] = Except.error PyErr.ensembleErr ∧
    transform [] = Except.error PyErr.attributeErr ∧
    PyErr.attributeErr ≠ PyErr.ensembleErr :=
  ⟨rfl, rfl, rfl, by decide⟩

/-- Claim C9: the claim states that `getSumOfWeights` type-checks its
input (`TypeError` on non-ensembles), returns `None` for a weightless
ensemble and the per-atom sum over conformations otherwise.  Line 514
references the global name `prody`, which the module's imports never
bind, so every call — ensemble with weights, ensemble without weights,
or non-ensemble — raises `NameError`, never `TypeError` and never a sum. -/
theorem getSumOfWeights_unbound_prody :
    getSumOfWeights (PyVal.ensembleV (some [[1, 1], [1, 0]])) = Except.error PyErr.nameErr ∧
    getSumOfWeights (PyVal.ensembleV none) = Except.error PyErr.nameErr ∧
    getSumOfWeights (PyVal.intV 42) = Except.error PyErr.nameErr ∧
    PyErr.nameErr ≠ PyErr.typeErr :=
  ⟨rfl, rfl, rfl, by decide⟩

/-- Counterexample to claim C10: an adapter input is not exempt from
every `ValueError`.  With `atomCount` already fixed at 2, an adapter
whose accessor yields a 3×3 array makes `setCoordinates` raise the
`ValueError` of the atom-count check at lines 145-147, contradicting
"raises no ValueError regardless of the shape of the data the accessor
yields". -/
theorem setCoordinates_adapter_valueerror_cex :
    setCoordinates [] exEns10 (CoordsArg.objA (some exA10)) =
      Except.error PyErr.valueErr :=
  rfl

/-- Claim C10 (amended): on the adapter path `setCoordinates` applies no
rank, trailing-width-3 or dtype validation — the accessor's result is
stored as-is — and the errors the path can raise are exactly these two:
an `IndexError` when the accessor's result has rank 0, because the
`coords.shape[0]` subscript at line 146/149 fails on an empty shape
tuple; and the atom-count `ValueError` when `atomCount` is already fixed
and the result's first-axis length differs from it.  With `atomCount`
unset and a result of rank at least 1 the call succeeds for every shape
and dtype; with `atomCount` fixed it succeeds exactly when the first-axis
length matches. -/
theorem setCoordinates_adapter_unvalidated (m : Mem) (a : NArr) :
    (∀ e : EnsR, a.shape.head? = none →
      setCoordinates m e (CoordsArg.objA (some a)) = Except.error PyErr.indexErr) ∧
    (∀ (e : EnsR) (n0 : Nat), e.nAtoms = none → a.shape.head? = some n0 →
      setCoordinates m e (CoordsArg.objA (some a)) =
        Except.ok (m ++ [a], { nAtoms := some n0, coordsId := some m.length })) ∧
    (∀ (e : EnsR) (n n0 : Nat), e.nAtoms = some n → a.shape.head? = some n0 → n0 = n →
      setCoordinates m e (CoordsArg.objA (some a)) =
        Except.ok (m ++ [a], { e with coordsId := some m.length })) ∧
    (∀ (e : EnsR) (n n0 : Nat), e.nAtoms = some n → a.shape.head? = some n0 → n0 ≠ n →
      setCoordinates m e (CoordsArg.objA (some a)) = Except.error PyErr.valueErr) := by
  refine ⟨?_, ?_, ?_, ?_⟩
  · intro e hsh
    cases he : e.nAtoms
    · simp only [setCoordinates, setCoordsTail, allocA]
      simp [he, hsh]
    · simp only [setCoordinates, setCoordsTail, allocA]
      simp [he, hsh]
  · intro e n0 he hsh
    simp only [setCoordinates, setCoordsTail, allocA]
    rw [he, hsh]
  · intro e n n0 he hsh hn
    subst hn
    simp only [setCoordinates, setCoordsTail, allocA]
    simp [he, hsh]
  · intro e n n0 he hsh hn
    simp only [setCoordinates, setCoordsTail, allocA]
    simp [he, hsh, hn]

/-- Witness for C10 (amended): `setCoordinates_adapter_unvalidated`
applied to the empty store, once with the rank-0 payload `exA10rank0`
(the `IndexError` case) and once with the 5×7 integer payload `exA10w`
(success with `atomCount` unset, success with matching fixed `atomCount`,
`ValueError` with mismatching fixed `atomCount`). -/
theorem setCoordinates_adapter_unvalidated_witness :
    setCoordinates [] { nAtoms := none, coordsId := none }
        (CoordsArg.objA (some exA10rank0)) = Except.error PyErr.indexErr ∧
    setCoordinates [] { nAtoms := none, coordsId := none }
        (CoordsArg.objA (some exA10w)) =
      Except.ok ([] ++ [exA10w],
        { nAtoms := some 5, coordsId := some (List.length ([] : Mem)) }) ∧
    setCoordinates [] { nAtoms := some 5, coordsId := none }
        (CoordsArg.objA (some exA10w)) =
      Except.ok ([] ++ [exA10w],
        { nAtoms := some 5, coordsId := some (List.length ([] : Mem)) }) ∧
    setCoordinates [] { nAtoms := some 2, coordsId := none }
        (CoordsArg.objA (some exA10w)) = Except.error PyErr.valueErr :=
  ⟨(setCoordinates_adapter_unvalidated [] exA10rank0).1
      { nAtoms := none, coordsId := none } rfl,
   (setCoordinates_adapter_unvalidated [] exA10w).2.1
      { nAtoms := none, coordsId := none } 5 rfl rfl,
   (setCoordinates_adapter_unvalidated [] exA10w).2.2.1
      { nAtoms := some 5, coordsId := none } 5 5 rfl rfl rfl,
   (setCoordinates_adapter_unvalidated [] exA10w).2.2.2
      { nAtoms := some 2, coordsId := none } 2 5 rfl rfl (by decide)⟩

end ProdyEnsemble
